import Mathlib

/-!
Verification of the se-agent Localization Engine specification.

The engine's components are embedded shallowly:
- the Context Budget Planner, Package Details Cache, Conversation Builder and
  Localization Orchestrator are modelled from the specification (their
  implementation is not part of the repository snapshot; the requirement
  documents and the spec describe their behaviour);
- the notebook strategies (HierarchicalLocalizationStrategy and
  SemanticVectorSearchStrategy from the evaluation notebooks) are translated
  directly from their Python source.
-/

namespace SeAgent

/-! ### Context Budget Planner -/

/-- Modelled from the spec: a Context Budget Planner candidate
`(key, text, token_count)` (spec section 4.2); the planner implementation is not
in the repository snapshot, only the requirement document describing its loop. -/
structure Candidate where
  key : String
  text : String
  token_count : Nat
deriving Repr, DecidableEq

/-- Sum of the token counts of a list of candidates. -/
def tokenSum : List Candidate → Nat
  | [] => 0
  | c :: cs => c.token_count + tokenSum cs

/-- Modelled from the spec: the planner's greedy loop — "iterate candidates in
given order, and for each candidate whose `token_count` would keep
`used + token_count ≤ limit`, include it and add to `used`; stop at the first
candidate that would overflow the limit". -/
def planLoop (limit : Nat) : Nat → List Candidate → List Candidate × Nat
  | used, [] => ([], used)
  | used, c :: rest =>
    if used + c.token_count ≤ limit then
      let r := planLoop limit (used + c.token_count) rest
      (c :: r.1, r.2)
    else
      ([], used)

/-- Modelled from the spec: `plan(task_name, template_text, candidates)` with
`limit = context_limit(task_name)` and `templateCost = estimate(template_text)`
already resolved to numbers; returns the included candidates and the leftover
headroom `limit - used` (an integer: non-positive when even the template
overflows). -/
def plan (limit templateCost : Nat) (cands : List Candidate) : List Candidate × Int :=
  ((planLoop limit templateCost cands).1,
   (limit : Int) - ((planLoop limit templateCost cands).2 : Int))

theorem planLoop_used_eq (limit : Nat) :
    ∀ (cs : List Candidate) (used : Nat),
      (planLoop limit used cs).2 = used + tokenSum (planLoop limit used cs).1
  | [], used => by simp [planLoop, tokenSum]
  | c :: rest, used => by
    by_cases h : used + c.token_count ≤ limit
    · have ih := planLoop_used_eq limit rest (used + c.token_count)
      simp only [planLoop, if_pos h, tokenSum]
      omega
    · simp [planLoop, if_neg h, tokenSum]

theorem planLoop_le (limit : Nat) :
    ∀ (cs : List Candidate) (used : Nat), used ≤ limit → (planLoop limit used cs).2 ≤ limit
  | [], used, h => by simpa [planLoop] using h
  | c :: rest, used, h => by
    by_cases hc : used + c.token_count ≤ limit
    · have ih := planLoop_le limit rest (used + c.token_count) hc
      simpa [planLoop, if_pos hc] using ih
    · simpa [planLoop, if_neg hc] using h

theorem planLoop_oversized (limit used : Nat) (cs : List Candidate) (h : limit < used) :
    planLoop limit used cs = ([], used) := by
  cases cs with
  | nil => rfl
  | cons c rest =>
    have : ¬ (used + c.token_count ≤ limit) := by omega
    simp [planLoop, if_neg this]

theorem planLoop_greedy (limit : Nat) :
    ∀ (cs : List Candidate) (used : Nat),
      ∃ k, k ≤ cs.length ∧ (planLoop limit used cs).1 = cs.take k ∧
        (∀ i, i < k → used + tokenSum (cs.take (i + 1)) ≤ limit) ∧
        (k < cs.length → limit < used + tokenSum (cs.take (k + 1)))
  | [], used => by
    refine ⟨0, by simp, by simp [planLoop], ?_, ?_⟩
    · intro i hi; omega
    · intro h; simp at h
  | c :: rest, used => by
    by_cases hc : used + c.token_count ≤ limit
    · obtain ⟨k, hk, hsel, hsums, hstop⟩ := planLoop_greedy limit rest (used + c.token_count)
      refine ⟨k + 1, by simpa [List.length_cons] using Nat.succ_le_succ hk, ?_, ?_, ?_⟩
      · simp [planLoop, if_pos hc, hsel, List.take_succ_cons]
      · intro i hi
        cases i with
        | zero =>
          simp only [List.take_succ_cons, List.take_zero, tokenSum]
          omega
        | succ j =>
          have hj := hsums j (by omega)
          simp only [List.take_succ_cons, tokenSum]
          omega
      · intro h
        have h' : k < rest.length := by
          simp only [List.length_cons] at h; omega
        have hs := hstop h'
        simp only [List.take_succ_cons, tokenSum]
        omega
    · refine ⟨0, by simp, by simp [planLoop, if_neg hc], ?_, ?_⟩
      · intro i hi; omega
      · intro _
        simp only [List.take_succ_cons, List.take_zero, tokenSum]
        omega

/-- Candidate list used to instantiate the planner theorems on concrete data
(the spec's synthetic scenario: details of 100, 50 and 30 tokens). -/
def demoCands : List Candidate :=
  [⟨"B", "details of B", 50⟩, ⟨"C", "details of C", 30⟩, ⟨"A", "details of A", 100⟩]

/-- C1 counterexample: with a context limit of 5 and a template already costing
10 tokens, the planner selects nothing, so the total estimated tokens
(template cost plus sum of selected token counts) is 10, which exceeds the
limit — the claim's inequality fails at this concrete input. -/
theorem plan_total_exceeds_limit_cex :
    5 < 10 + tokenSum (plan 5 10 [(⟨"A", "alpha", 1⟩ : Candidate)]).1 := by decide

/-- C1 (amended): whenever the template cost alone is within the context limit,
the selection returned by `plan` has total estimated tokens (template cost plus
the sum of selected candidates' token counts) at most the limit. -/
theorem plan_total_within_limit (limit templateCost : Nat) (cands : List Candidate)
    (h : templateCost ≤ limit) :
    templateCost + tokenSum (plan limit templateCost cands).1 ≤ limit := by
  have h1 := planLoop_used_eq limit cands templateCost
  have h2 := planLoop_le limit cands templateCost h
  show templateCost + tokenSum (planLoop limit templateCost cands).1 ≤ limit
  omega

/-- Witness for C1 (amended) at the concrete synthetic scenario. -/
theorem plan_total_within_limit_witness :
    20 ≤ 120 ∧ 20 + tokenSum (plan 120 20 demoCands).1 ≤ 120 :=
  ⟨by decide, plan_total_within_limit 120 20 demoCands (by decide)⟩

/-- C2: the planner's selection is a contiguous front segment of the input
order — there is a `k` with the selection equal to `take k`, every included
candidate kept the running total within the limit when it was added, and, when
not all candidates fit, the first excluded candidate would have overflowed the
limit (no reordering, no gaps, no partial inclusion). -/
theorem plan_selection_greedy (limit templateCost : Nat) (cands : List Candidate) :
    ∃ k, k ≤ cands.length ∧ (plan limit templateCost cands).1 = cands.take k ∧
      (∀ i, i < k → templateCost + tokenSum (cands.take (i + 1)) ≤ limit) ∧
      (k < cands.length → limit < templateCost + tokenSum (cands.take (k + 1))) :=
  planLoop_greedy limit cands templateCost

/-- Witness for C2 at the concrete synthetic scenario. -/
theorem plan_selection_greedy_witness :
    ∃ k, k ≤ demoCands.length ∧ (plan 120 20 demoCands).1 = demoCands.take k ∧
      (∀ i, i < k → 20 + tokenSum (demoCands.take (i + 1)) ≤ 120) ∧
      (k < demoCands.length → 120 < 20 + tokenSum (demoCands.take (k + 1))) :=
  plan_selection_greedy 120 20 demoCands

/-- C7: when the template alone exceeds the context limit, `plan` returns an
empty selection together with a non-positive remaining budget; the operation
returns normally (a total function yielding a value, not an error), which
models "surfaced as a warning, not a failure". -/
theorem plan_oversized_template (limit templateCost : Nat) (cands : List Candidate)
    (h : limit < templateCost) :
    (plan limit templateCost cands).1 = [] ∧ (plan limit templateCost cands).2 ≤ 0 := by
  have h0 := planLoop_oversized limit templateCost cands h
  have h1 : (planLoop limit templateCost cands).1 = [] := by rw [h0]
  have h2 : (planLoop limit templateCost cands).2 = templateCost := by rw [h0]
  constructor
  · show (planLoop limit templateCost cands).1 = []
    exact h1
  · show (limit : Int) - ((planLoop limit templateCost cands).2 : Int) ≤ 0
    rw [h2]
    omega

/-- Witness for C7 at a concrete oversized template. -/
theorem plan_oversized_template_witness :
    5 < 10 ∧ (plan 5 10 [(⟨"A", "alpha", 2⟩ : Candidate)]).1 = []
      ∧ (plan 5 10 [(⟨"A", "alpha", 2⟩ : Candidate)]).2 ≤ 0 :=
  ⟨by decide, plan_oversized_template 5 10 [(⟨"A", "alpha", 2⟩ : Candidate)] (by decide)⟩

/-! ### Package Details Cache -/

/-- Modelled from the spec: a `PackageDetails` entry — package name, aggregated
documentation text, its token count and the `cached_at` timestamp (spec
section 3); the cache implementation is not in the repository snapshot, only
the requirement document describing it. -/
structure PackageDetails where
  package_name : String
  text : String
  token_count : Nat
  cached_at : Nat
deriving Repr, DecidableEq

/-- Modelled from the spec: the `BuildFailure` error kind, carrying the package
name of the failed build (spec section 7). -/
structure BuildFailure where
  package_name : String
deriving Repr, DecidableEq

/-- The cache's durable store: package name keyed entries. -/
abbrev Cache := List (String × PackageDetails)

/-- Lookup by key in an association list (the key/value store retrieval). -/
def assocLookup {α : Type} : List (String × α) → String → Option α
  | [], _ => none
  | (k, v) :: rest, key => if k = key then some v else assocLookup rest key

/-- Modelled from the spec: `get_or_build(package_name, builder_fn)` — returns
the cached entry if present; otherwise invokes `builder_fn` once, stores the
result with its token count (and timestamp), and returns it; a builder failure
propagates as a `BuildFailure` carrying the package name and leaves the cache
unchanged. The `estimate` argument is the Token Estimator, `now` the clock
reading at the call; the final component counts how many times this call
invoked the builder. -/
def get_or_build (estimate : String → Nat) (now : Nat) (cache : Cache)
    (package_name : String) (builder : String → Option String) :
    Except BuildFailure PackageDetails × Cache × Nat :=
  match assocLookup cache package_name with
  | some details => (Except.ok details, cache, 0)
  | none =>
    match builder package_name with
    | some text =>
      let details : PackageDetails :=
        { package_name := package_name, text := text,
          token_count := estimate text, cached_at := now }
      (Except.ok details, (package_name, details) :: cache, 1)
    | none => (Except.error { package_name := package_name }, cache, 1)

/-- Modelled from the spec: `invalidate(package_name)` removes the entry for
the given package name from the store. -/
def invalidate (cache : Cache) (package_name : String) : Cache :=
  cache.filter (fun p => p.1 ≠ package_name)

theorem assocLookup_cons_self {α : Type} (k : String) (v : α) (rest : List (String × α)) :
    assocLookup ((k, v) :: rest) k = some v := by
  simp [assocLookup]

/-- C4 counterexample: with an always-failing builder and an initially empty
cache, two sequential `get_or_build` calls for the same package name (no
intervening `invalidate`) each invoke the builder once — two invocations in
total, refuting "invokes the builder function at most once" for every builder
function. -/
theorem get_or_build_twice_cex :
    ¬ ((get_or_build String.length 0 [] "pkg" (fun _ => none)).2.2 +
        (get_or_build String.length 0
          (get_or_build String.length 0 [] "pkg" (fun _ => none)).2.1
          "pkg" (fun _ => none)).2.2 ≤ 1) := by
  decide

/-- C4 (amended): if the first `get_or_build` call for a package name succeeds,
then a second call in sequence for the same name with no intervening
`invalidate` returns the stored entry without invoking the builder, so the
builder is invoked at most once across the two calls. -/
theorem get_or_build_twice_builds_once (estimate : String → Nat) (now now' : Nat)
    (cache : Cache) (package_name : String) (builder : String → Option String)
    (d : PackageDetails)
    (h : (get_or_build estimate now cache package_name builder).1 = Except.ok d) :
    get_or_build estimate now' (get_or_build estimate now cache package_name builder).2.1
        package_name builder
      = (Except.ok d, (get_or_build estimate now cache package_name builder).2.1, 0)
    ∧ (get_or_build estimate now cache package_name builder).2.2 +
        (get_or_build estimate now'
          (get_or_build estimate now cache package_name builder).2.1
          package_name builder).2.2 ≤ 1 := by
  unfold get_or_build at *
  cases hl : assocLookup cache package_name with
  | some v =>
    simp only [hl] at h ⊢
    cases h
    simp [hl]
  | none =>
    cases hb : builder package_name with
    | some text =>
      simp only [hl, hb] at h ⊢
      cases h
      simp [assocLookup_cons_self]
    | none =>
      simp [hl, hb] at h

/-- Witness for C4 (amended) with a concrete succeeding builder. -/
theorem get_or_build_twice_builds_once_witness :
    (get_or_build String.length 7 [] "pkg" (fun _ => some "docs") |>.1)
        = Except.ok ({ package_name := "pkg", text := "docs",
                       token_count := 4, cached_at := 7 } : PackageDetails)
    ∧ (get_or_build String.length 9
          (get_or_build String.length 7 [] "pkg" (fun _ => some "docs")).2.1
          "pkg" (fun _ => some "docs")
        = (Except.ok ({ package_name := "pkg", text := "docs",
                        token_count := 4, cached_at := 7 } : PackageDetails),
           (get_or_build String.length 7 [] "pkg" (fun _ => some "docs")).2.1, 0)
       ∧ (get_or_build String.length 7 [] "pkg" (fun _ => some "docs")).2.2 +
           (get_or_build String.length 9
             (get_or_build String.length 7 [] "pkg" (fun _ => some "docs")).2.1
             "pkg" (fun _ => some "docs")).2.2 ≤ 1) :=
  ⟨rfl, get_or_build_twice_builds_once String.length 7 9 [] "pkg" (fun _ => some "docs")
    { package_name := "pkg", text := "docs", token_count := 4, cached_at := 7 } rfl⟩

/-- C8: when the package is not cached and the builder fails, `get_or_build`
propagates a `BuildFailure` carrying that package name, and the cache's stored
state is exactly as it was before the call. -/
theorem get_or_build_failure (estimate : String → Nat) (now : Nat) (cache : Cache)
    (package_name : String) (builder : String → Option String)
    (hmiss : assocLookup cache package_name = none)
    (hfail : builder package_name = none) :
    get_or_build estimate now cache package_name builder
      = (Except.error { package_name := package_name }, cache, 1) := by
  simp [get_or_build, hmiss, hfail]

/-- Witness for C8 with a concrete failing builder on a miss. -/
theorem get_or_build_failure_witness :
    assocLookup ([] : Cache) "pkg" = none
    ∧ (fun (_ : String) => (none : Option String)) "pkg" = none
    ∧ get_or_build String.length 3 [] "pkg" (fun _ => none)
        = (Except.error { package_name := "pkg" }, ([] : Cache), 1) :=
  ⟨rfl, rfl, get_or_build_failure String.length 3 [] "pkg" (fun _ => none) rfl rfl⟩

/-! ### Conversation Builder -/

/-- The reserved marker substring the agent appends to its own comments
(requirement document: a special string such as `<!-- SE Agent -->` decides the
role of a comment). -/
def seAgentMarker : String := "<!-- SE Agent -->"

/-- Modelled from the spec: a normalized inbound comment
`{id, body, author}` (spec section 6); the event-normalization code is not in
the repository snapshot. -/
structure Comment where
  id : Nat
  body : String
  author : String
deriving Repr, DecidableEq

/-- Modelled from the spec: a normalized inbound issue event
`{title, description, comments}` (spec section 6). -/
structure IssueEvent where
  title : String
  description : String
  comments : List Comment
deriving Repr, DecidableEq

/-- Speaker role of a conversation message. -/
inductive Role where
  | user
  | agent
deriving Repr, DecidableEq

/-- A conversation message `{role, content}`. -/
structure Message where
  role : Role
  content : String
deriving Repr, DecidableEq

/-- A conversation: title plus the ordered role-tagged messages. -/
structure Conversation where
  title : String
  messages : List Message
deriving Repr, DecidableEq

/-- Decides whether `pat` occurs as a contiguous run inside the second list
(the Python `in` substring test on the comment body). -/
def containsSub (pat : List Char) : List Char → Bool
  | [] => pat.isEmpty
  | c :: cs => pat.isPrefixOf (c :: cs) || containsSub pat cs

/-- Whether a comment body contains the reserved agent marker substring. -/
def containsMarker (s : String) : Bool :=
  containsSub seAgentMarker.toList s.toList

/-- Modelled from the spec: the Conversation Builder's `build(issue)` — the
initial message is always `{role: user, content: "<title>\n\n<description>"}`;
each subsequent comment becomes one message whose role is `agent` exactly when
the comment body contains the reserved marker substring, else `user` (spec
section 4.4; the builder implementation is not in the repository snapshot). -/
def build (issue : IssueEvent) : Conversation :=
  { title := issue.title
    messages :=
      { role := Role.user, content := issue.title ++ "\n\n" ++ issue.description } ::
        issue.comments.map (fun c =>
          { role := if containsMarker c.body then Role.agent else Role.user,
            content := c.body }) }

/-- C5: the first message built from an issue is the user message
`"<title>\n\n<description>"`, and a subsequent comment message has role `agent`
exactly when its content contains the reserved marker substring; every other
message has role `user`. -/
theorem build_first_message_and_roles (issue : IssueEvent) :
    (build issue).messages.head? =
      some { role := Role.user, content := issue.title ++ "\n\n" ++ issue.description }
    ∧ ∀ m ∈ (build issue).messages.tail,
        (m.role = Role.agent ↔ containsMarker m.content = true) := by
  constructor
  · rfl
  · intro m hm
    simp only [build, List.tail_cons, List.mem_map] at hm
    obtain ⟨c, hc, rfl⟩ := hm
    by_cases h : containsMarker c.body = true
    · simp [h]
    · simp [h]

/-- Issue used to instantiate the Conversation Builder theorem on concrete
data: one human comment and one marker-carrying agent comment. -/
def demoIssue : IssueEvent :=
  { title := "Crash on startup"
    description := "The app crashes when started."
    comments :=
      [ { id := 1, body := "I can reproduce this.", author := "alice" },
        { id := 2, body := "Try this <!-- SE Agent --> patch", author := "alice" } ] }

/-- Witness for C5: the marker-carrying comment message of the concrete issue
is in the tail and its role is `agent` exactly because it carries the marker. -/
theorem build_first_message_and_roles_witness :
    (({ role := Role.agent, content := "Try this <!-- SE Agent --> patch" } : Message)
        ∈ (build demoIssue).messages.tail)
    ∧ (Role.agent = Role.agent ↔ containsMarker "Try this <!-- SE Agent --> patch" = true) :=
  ⟨by decide,
   (build_first_message_and_roles demoIssue).2
     { role := Role.agent, content := "Try this <!-- SE Agent --> patch" } (by decide)⟩

/-! ### Localization Orchestrator -/

/-- Modelled from the spec: a `LocalizationSuggestion` — package, file,
confidence (bounded scalar on a strategy-defined scale) and free-text reason
(spec section 3). -/
structure LocalizationSuggestion where
  package : String
  file : String
  confidence : Rat
  reason : String
deriving Repr, DecidableEq

/-- Modelled from the spec: the `ConfigurationError` error kind for an unknown
strategy name (spec section 7). -/
inductive ConfigurationError where
  | unknownStrategy (strategy_name : String)
deriving Repr, DecidableEq

/-- A registered strategy's `localize(conversation, top_n)` entry point. -/
abbrev StrategyFn := Conversation → Nat → List LocalizationSuggestion

/-- Modelled from the spec: the Orchestrator's
`localize(issue, strategy_name, top_n)` — resolves the strategy name against
the registry, builds the Conversation once via the Conversation Builder and
delegates; an unknown strategy name is a configuration error, never a silent
default (spec section 4.6; the orchestrator implementation is not in the
repository snapshot). -/
def orchestrator_localize (registry : List (String × StrategyFn)) (issue : IssueEvent)
    (strategy_name : String) (top_n : Nat) :
    Except ConfigurationError (List LocalizationSuggestion) :=
  match assocLookup registry strategy_name with
  | none => Except.error (ConfigurationError.unknownStrategy strategy_name)
  | some strat => Except.ok (strat (build issue) top_n)

theorem assocLookup_eq_none {α : Type} :
    ∀ (l : List (String × α)) (key : String),
      key ∉ l.map Prod.fst → assocLookup l key = none
  | [], _, _ => rfl
  | (k, v) :: rest, key, h => by
    simp only [List.map_cons, List.mem_cons, not_or] at h
    obtain ⟨h1, h2⟩ := h
    have hk : k ≠ key := fun e => h1 e.symm
    simp only [assocLookup, if_neg hk]
    exact assocLookup_eq_none rest key h2

/-- C9: when the strategy name is not registered, the Orchestrator's localize
fails with a `ConfigurationError` naming that strategy, rather than silently
falling back to a default strategy. -/
theorem orchestrator_unknown_strategy (registry : List (String × StrategyFn))
    (issue : IssueEvent) (strategy_name : String) (top_n : Nat)
    (h : strategy_name ∉ registry.map Prod.fst) :
    orchestrator_localize registry issue strategy_name top_n
      = Except.error (ConfigurationError.unknownStrategy strategy_name) := by
  have hl := assocLookup_eq_none registry strategy_name h
  simp [orchestrator_localize, hl]

/-- Witness for C9 with a registry holding only a hierarchical strategy. -/
theorem orchestrator_unknown_strategy_witness :
    ("semantic_vector"
        ∉ ([("hierarchical", ((fun _ _ => []) : StrategyFn))]).map Prod.fst)
    ∧ orchestrator_localize [("hierarchical", ((fun _ _ => []) : StrategyFn))]
        demoIssue "semantic_vector" 3
      = Except.error (ConfigurationError.unknownStrategy "semantic_vector") :=
  ⟨by decide,
   orchestrator_unknown_strategy [("hierarchical", ((fun _ _ => []) : StrategyFn))]
     demoIssue "semantic_vector" 3 (by decide)⟩

/-! ### Notebook: HierarchicalLocalizationStrategy -/

/-- From the evaluation notebook: a `FileLocalizationSuggestion` parsed from
the file-ranking call, with `{package, file, confidence, reason}`. -/
structure FileLocalizationSuggestion where
  package : String
  file : String
  confidence : Rat
  reason : String
deriving Repr, DecidableEq

/-- Translation of Python `os.path.splitext(s)[0]` for a bare file name:
leading dots never start an extension; otherwise the name is cut at its last
dot. -/
def splitextRoot (s : String) : String :=
  let cs := s.toList
  let body := cs.drop (cs.takeWhile (fun c => c == '.')).length
  if body.contains '.' then
    String.mk ((cs.reverse.drop ((cs.reverse.takeWhile (fun c => c != '.')).length + 1)).reverse)
  else s

/-- From the evaluation notebook (`HierarchicalLocalizationStrategy.localize`):
the wrapper invokes `localize_issue` (external to the snapshot; its optional
result is passed in already computed); when that result is `None` the wrapper
returns an empty list ("If localization fails, return an empty list"),
otherwise it maps the first `top_n` suggestions to
`(package, splitext(file)[0])` pairs. -/
def hierarchical_localize
    (localization_suggestions : Option (List FileLocalizationSuggestion))
    (top_n : Nat) : List (String × String) :=
  match localization_suggestions with
  | none => []
  | some suggestions =>
    (suggestions.take top_n).map (fun s => (s.package, splitextRoot s.file))

/-- C3 counterexample: when the hierarchical ranking fails (the underlying
`localize_issue` yields no suggestions, as on a parse failure), the notebook
strategy's localize returns the empty suggestion list — no error is surfaced,
and its return type carries no error channel at all. -/
theorem hierarchical_localize_failure_cex :
    hierarchical_localize none 5 = [] := rfl

/-- C3 (amended): for every `top_n`, a failed ranking (no parseable
suggestions) makes the notebook hierarchical strategy return the empty list;
the failure is swallowed rather than surfaced as a `LocalizationFailure`. -/
theorem hierarchical_localize_failure (top_n : Nat) :
    hierarchical_localize none top_n = [] := rfl

/-! ### Notebook: SemanticVectorSearchStrategy -/

/-- From the evaluation notebook: an indexed vector document — its page
content plus the `file` and `package` metadata the strategy attaches. -/
structure Document where
  page_content : String
  file : String
  package : String
deriving Repr, DecidableEq

/-- One file met while walking the source folder: the relative path of its
directory (`os.path.relpath(root, folder_path)`, `"."` at the top,
slash-separated as after `relative_path.replace(os.sep, '/')`), the file name
and the content read from it. -/
structure WalkEntry where
  relative_path : String
  name : String
  content : String
deriving Repr, DecidableEq

/-- Translation of Python `not page_content.strip()`: true exactly when every
character of the content is whitespace, i.e. the stripped content is empty. -/
def strippedEmpty (s : String) : Bool :=
  s.toList.all Char.isWhitespace

/-- Translation of Python `file.split('.')[0]`: the file name truncated at its
first dot. -/
def truncAtFirstDot (name : String) : String :=
  String.mk (name.toList.takeWhile (fun c => c != '.'))

/-- Translation of the notebook's package computation: `root_package_name` when
the file sits at the top of the walked folder (`relative_path == "."`), else
`root_package_name ++ "/" ++ relative_path`. -/
def packageOf (root_package_name relative_path : String) : String :=
  if relative_path = "." then root_package_name
  else root_package_name ++ "/" ++ relative_path

/-- From the evaluation notebook
(`SemanticVectorSearchStrategy.create_documents`): walks the folder (here: the
list of walked entries), skips files whose content is empty after stripping,
and indexes each remaining file with metadata `file = file.split('.')[0]` and
the package derived from the directory's relative path. -/
def create_documents (root_package_name : String) (entries : List WalkEntry) :
    List Document :=
  entries.filterMap (fun e =>
    if strippedEmpty e.content then none
    else some { page_content := e.content,
                file := truncAtFirstDot e.name,
                package := packageOf root_package_name e.relative_path })

/-- From the evaluation notebook (`SemanticVectorSearchStrategy.localize`):
forms the query string `f"{title}: {description}"`, asks the vector store for
the `top_n` most similar documents (`similarity_search`, an external
collaborator, is passed in as a function) and returns their
`(package, file)` metadata pairs. -/
def vector_search_localize (similarity_search : String → Nat → List Document)
    (title description : String) (top_n : Nat) : List (String × String) :=
  (similarity_search (title ++ ": " ++ description) top_n).map
    (fun r => (r.package, r.file))

/-- C10: every document produced by `create_documents` has page content that is
non-empty after stripping whitespace, and its file metadata is a source file
name truncated at the first dot — hence it contains no dot and so no
extension. -/
theorem create_documents_invariant (root_package_name : String)
    (entries : List WalkEntry) (d : Document)
    (hd : d ∈ create_documents root_package_name entries) :
    strippedEmpty d.page_content = false
    ∧ (∃ e ∈ entries, d.file = truncAtFirstDot e.name ∧ d.page_content = e.content)
    ∧ ∀ c ∈ d.file.toList, c ≠ '.' := by
  simp only [create_documents, List.mem_filterMap] at hd
  obtain ⟨e, he, hsome⟩ := hd
  by_cases h : strippedEmpty e.content = true
  · simp [h] at hsome
  · rw [if_neg h] at hsome
    injection hsome with hde
    subst hde
    refine ⟨by simpa using h, ⟨e, he, rfl, rfl⟩, ?_⟩
    intro c hc
    have hc' : c ∈ e.name.toList.takeWhile (fun c => c != '.') := hc
    have hp := List.mem_takeWhile_imp hc'
    simpa using hp

/-- Witness for C10 at a concrete walked folder. -/
theorem create_documents_invariant_witness :
    (({ page_content := "code", file := "localizer", package := "se_agent" } : Document)
        ∈ create_documents "se_agent" [⟨".", "localizer.py", "code"⟩])
    ∧ (strippedEmpty "code" = false
       ∧ (∃ e ∈ [(⟨".", "localizer.py", "code"⟩ : WalkEntry)],
            "localizer" = truncAtFirstDot e.name ∧ "code" = e.content)
       ∧ ∀ c ∈ ("localizer" : String).toList, c ≠ '.') :=
  ⟨by decide,
   create_documents_invariant "se_agent" [⟨".", "localizer.py", "code"⟩]
     { page_content := "code", file := "localizer", package := "se_agent" } (by decide)⟩

/-- C6 counterexample: indexing a folder that contains the dotfile `.env`
(whose content is not blank) yields a document whose file metadata is the empty
string; a similarity search returning it makes the vector strategy produce a
suggestion whose file is empty — refuting "every suggestion … has a non-empty
file" (the notebook suggestions also carry no confidence value at all). -/
theorem vector_search_localize_empty_file_cex :
    vector_search_localize
      (fun _ k => (create_documents "se_agent" [⟨".", ".env", "SECRET=1"⟩]).take k)
      "add config support" "where should the env file live" 5
      = [("se_agent", "")] := by decide

/-- C6 (amended): for the notebook strategies — whenever the underlying
similarity search returns at most `top_n` documents, all drawn from the
indexed store, the vector strategy returns at most `top_n` suggestions, each
being exactly the `(package, file)` metadata of an indexed document (the file
may be empty, e.g. for dotfiles, and no confidence value is attached); the
hierarchical wrapper likewise returns at most `top_n` pairs. -/
theorem notebook_localize_bounds (similarity_search : String → Nat → List Document)
    (store : List Document) (title description : String) (top_n : Nat)
    (suggestions : Option (List FileLocalizationSuggestion))
    (hlen : (similarity_search (title ++ ": " ++ description) top_n).length ≤ top_n)
    (hmem : ∀ d ∈ similarity_search (title ++ ": " ++ description) top_n, d ∈ store) :
    (vector_search_localize similarity_search title description top_n).length ≤ top_n
    ∧ (∀ p ∈ vector_search_localize similarity_search title description top_n,
        ∃ d ∈ store, p = (d.package, d.file))
    ∧ (hierarchical_localize suggestions top_n).length ≤ top_n := by
  refine ⟨?_, ?_, ?_⟩
  · simpa [vector_search_localize] using hlen
  · intro p hp
    simp only [vector_search_localize, List.mem_map] at hp
    obtain ⟨d, hd, rfl⟩ := hp
    exact ⟨d, hmem d hd, rfl⟩
  · cases suggestions with
    | none => simp [hierarchical_localize]
    | some s =>
      simp only [hierarchical_localize, List.length_map, List.length_take]
      exact Nat.min_le_left _ _

/-- Store used to instantiate the notebook strategy bounds on concrete data. -/
def demoStore : List Document :=
  create_documents "se_agent"
    [⟨".", "localizer.py", "localizer code"⟩, ⟨"llm", "api.py", "llm api code"⟩]

/-- Witness for C6 (amended) with a concrete store and search. -/
theorem notebook_localize_bounds_witness :
    (vector_search_localize (fun _ k => demoStore.take k) "fix localizer" "details" 2).length ≤ 2
    ∧ (∀ p ∈ vector_search_localize (fun _ k => demoStore.take k) "fix localizer" "details" 2,
        ∃ d ∈ demoStore, p = (d.package, d.file))
    ∧ (hierarchical_localize
        (some [⟨"se_agent", "localizer.py", 9, "relevant"⟩]) 2).length ≤ 2 :=
  notebook_localize_bounds (fun _ k => demoStore.take k) demoStore "fix localizer" "details" 2
    (some [⟨"se_agent", "localizer.py", 9, "relevant"⟩]) (by decide) (by decide)

end SeAgent
